import Mathlib

/-!
Verification of the ZenMon monitoring agent (zenmon-agent-python-v2.0.py).

Shallow embedding conventions:
* Timestamps are integers counting seconds; a value of type Int named now is
  the current clock reading, and datetime subtraction becomes Int subtraction.
* Network interactions are modelled by oracle values: the outcome of one HTTP
  login request is a LoginResult, the outcome of one batch-metrics POST is a
  PostStatus.  Functions that may perform several requests consume a list of
  such oracle outcomes (the transport, in order); an empty list models an
  exhausted stub transport and is reported as a failed request.
* Python float division in refresh_token_if_needed (total_seconds()/60 and
  margin/60) is modelled with exact rational division.
-/

namespace ZenMon

/-- AuthToken dataclass: token string, absolute expiry (seconds), identity. -/
structure AuthToken where
  token : String
  expires_at : Int
  user_id : Int
  username : String
deriving DecidableEq

/-- The credential state owned by TokenManager: the current token (if any) and
the Authorization header installed on the requests session (if any). -/
structure TokenState where
  current_token : Option AuthToken
  authHeader : Option String
deriving DecidableEq

/-- The user object of a login response body; a field is none when the JSON
key is absent (accessing it raises KeyError in the source). -/
structure LoginUser where
  id : Option Int
  login : Option String
deriving DecidableEq

/-- A parsed login response body with possibly missing fields. -/
structure LoginBody where
  token : Option String
  user : Option LoginUser
deriving DecidableEq

/-- Outcome of one POST to the login endpoint, as seen by authenticate():
a 200 response with a parsed body, a non-200 status, a requests exception
(network error or timeout), or any other unexpected exception. -/
inductive LoginResult where
  | success (body : LoginBody)
  | httpError (status : Nat)
  | netError
  | otherError
deriving DecidableEq

/-- The fixed session lifetime assumed by authenticate():
timedelta(minutes=480) in seconds. -/
def sessionLifetime : Int := 28800

/-- TokenManager.authenticate, embedded over one login oracle outcome.
On a 200 response whose body has all of token, user, user.id, user.login the
function installs a fresh AuthToken expiring at now + 480 minutes and sets the
session Authorization header; every other path returns false and leaves the
state alone (a missing field models the KeyError handler). -/
def authenticate (st : TokenState) (now : Int) (resp : LoginResult) :
    Bool × TokenState :=
  match resp with
  | .success body =>
    match body.token, body.user with
    | some t, some u =>
      match u.id, u.login with
      | some uid, some ulogin =>
        (true,
          { current_token := some
              { token := t, expires_at := now + sessionLifetime,
                user_id := uid, username := ulogin },
            authHeader := some ("Bearer " ++ t) })
      | _, _ => (false, st)
    | _, _ => (false, st)
  | .httpError _ => (false, st)
  | .netError => (false, st)
  | .otherError => (false, st)

/-- TokenManager.is_token_valid: true iff a token exists and
expires_at - now is strictly above the refresh margin. -/
def is_token_valid (st : TokenState) (now : Int) (margin : Int) : Bool :=
  match st.current_token with
  | none => false
  | some tok => decide (tok.expires_at - now > margin)

/-- Result of one refresh_token_if_needed call: the boolean the method
returns, the credential state afterwards, how many times authenticate() was
invoked, and the unconsumed part of the login oracle. -/
structure RefreshResult where
  ok : Bool
  state : TokenState
  authCalls : Nat
  rest : List LoginResult
deriving DecidableEq

/-- The minutes-until-expiry comparison of refresh_token_if_needed:
minutes_left is total_seconds()/60 and it is compared with margin/60, both
float divisions, modelled by exact rational division. -/
def minutes_le (s m : Int) : Prop :=
  ((s : ℚ) / 60 ≤ (m : ℚ) / 60)

/-- The float comparison made by refresh_token_if_needed is equivalent to
comparing the remaining seconds with the margin directly. -/
theorem refresh_margin_compare (s m : Int) : minutes_le s m ↔ s ≤ m := by
  rw [minutes_le,
    div_le_div_iff_of_pos_right (by norm_num : (0:ℚ) < 60)]
  exact_mod_cast Iff.rfl

instance (s m : Int) : Decidable (minutes_le s m) :=
  decidable_of_iff (s ≤ m) (refresh_margin_compare s m).symm

/-- TokenManager.refresh_token_if_needed: with no current token it calls
authenticate(); otherwise it compares minutes until expiry against
margin/60 (rational arithmetic models the float division of the source) and
re-authenticates iff the margin is crossed, else returns true untouched.
An empty login oracle models an authenticate() attempt whose request failed. -/
def refresh_token_if_needed (st : TokenState) (now margin : Int)
    (auths : List LoginResult) : RefreshResult :=
  match st.current_token with
  | none =>
    match auths with
    | [] => ⟨false, st, 1, []⟩
    | a :: rest =>
      let r := authenticate st now a
      ⟨r.1, r.2, 1, rest⟩
  | some tok =>
    if minutes_le (tok.expires_at - now) margin then
      match auths with
      | [] => ⟨false, st, 1, []⟩
      | a :: rest =>
        let r := authenticate st now a
        ⟨r.1, r.2, 1, rest⟩
    else ⟨true, st, 0, auths⟩

/-- AgentConfig dataclass with its default field values. -/
structure AgentConfig where
  api_url : String
  host_id : Int
  login : String
  password : String
  collection_interval : Int := 120
  timeout : Int := 30
  token_refresh_margin : Int := 300
  enable_cpu_monitoring : Bool := true
  enable_ram_monitoring : Bool := true
  enable_disk_monitoring : Bool := true
  enable_network_monitoring : Bool := true
deriving DecidableEq

/-- The configuration payload returned by the remote configuration endpoint;
a field is none when the JSON key is absent, in which case
AgentConfig.update_from_api falls back to the dict.get default. -/
structure ApiConfigPayload where
  data_collection_interval : Option Int
  enable_cpu_monitoring : Option Bool
  enable_ram_monitoring : Option Bool
  enable_disk_monitoring : Option Bool
  enable_network_monitoring : Option Bool
deriving DecidableEq

/-- AgentConfig.update_from_api: overwrite the collection interval and the
four feature flags from the payload, with get-defaults 120 and True, and
report whether any of the five fields changed. -/
def update_from_api (c : AgentConfig) (p : ApiConfigPayload) :
    AgentConfig × Bool :=
  let c' : AgentConfig :=
    { c with
      collection_interval := p.data_collection_interval.getD 120,
      enable_cpu_monitoring := p.enable_cpu_monitoring.getD true,
      enable_ram_monitoring := p.enable_ram_monitoring.getD true,
      enable_disk_monitoring := p.enable_disk_monitoring.getD true,
      enable_network_monitoring := p.enable_network_monitoring.getD true }
  let config_changed : Bool :=
    decide (c.collection_interval ≠ c'.collection_interval) ||
    decide (c.enable_cpu_monitoring ≠ c'.enable_cpu_monitoring) ||
    decide (c.enable_ram_monitoring ≠ c'.enable_ram_monitoring) ||
    decide (c.enable_disk_monitoring ≠ c'.enable_disk_monitoring) ||
    decide (c.enable_network_monitoring ≠ c'.enable_network_monitoring)
  (c', config_changed)

/-- The fixed config refresh interval of ZenMonAgent: 10 minutes in seconds. -/
def config_refresh_interval : Int := 600

/-- ZenMonAgent._should_refresh_config: the elapsed time since the last
config refresh is at least the refresh interval. -/
def should_refresh_config (now last_config_refresh : Int) : Bool :=
  decide (now - last_config_refresh ≥ config_refresh_interval)

/-- ZenMonAgent._refresh_config_if_needed, over the outcome of
get_agent_configuration (none = unavailable).  When a payload is obtained the
configuration is updated and last_config_refresh is set to now; when the
refresh fails both the configuration and last_config_refresh are left as they
were.  Returns the configuration and the last-refresh timestamp afterwards. -/
def refresh_config_if_needed (c : AgentConfig) (last_config_refresh : Int)
    (now : Int) (api_config : Option ApiConfigPayload) : AgentConfig × Int :=
  match api_config with
  | some p => ((update_from_api c p).1, now)
  | none => (c, last_config_refresh)

/-- One-second sleep loop of ZenMonAgent._wait_for_next_cycle.  The argument
running gives the value of the self.running flag as observed at each loop
check: running k is the flag value at the check made after k one-second
sleeps (the shutdown handler may clear it asynchronously at any point).
remaining is collection_interval - total_slept; the loop stops when
total_slept reaches the interval or the flag is observed false, and returns
the number of one-second steps slept. -/
def wait_for_next_cycle_aux : Nat → Nat → (Nat → Bool) → Nat
  | 0, total_slept, _ => total_slept
  | remaining + 1, total_slept, running =>
    if running total_slept then
      wait_for_next_cycle_aux remaining (total_slept + 1) running
    else total_slept

/-- ZenMonAgent._wait_for_next_cycle: sleep in 1-second steps until
collection_interval seconds have been slept or the running flag is observed
cleared; returns the total seconds slept. -/
def wait_for_next_cycle (collection_interval : Nat) (running : Nat → Bool) :
    Nat :=
  wait_for_next_cycle_aux collection_interval 0 running

/-- Parse of sys.argv in main(): wrong argument count, a HOST_ID that is not
an integer (ValueError), or the four parsed startup parameters. -/
inductive ArgvParse where
  | wrongCount
  | badHostId
  | parsed (api_url : String) (host_id : Int) (login password : String)

/-- ZenMonAgent.start up to loop entry: authenticate once; on failure log and
return without ever setting self.running or entering the while loop.  Returns
whether the RUNNING loop was entered, together with the credential state (the
loop body itself is modelled separately by wait_for_next_cycle and
send_metrics). -/
def start (now : Int) (resp : LoginResult) : Bool × TokenState :=
  let r := authenticate ⟨none, none⟩ now resp
  if r.1 then (true, r.2) else (false, r.2)

/-- Exit status of main(): sys.exit(1) on a wrong argument count or a
non-integer HOST_ID; otherwise agent.start() is called and main falls off its
end whatever start did, so the interpreter exits with status 0. -/
def mainExitCode (args : ArgvParse) (now : Int) (resp : LoginResult) : Nat :=
  match args with
  | .wrongCount => 1
  | .badHostId => 1
  | .parsed _ _ _ _ =>
    let started := start now resp
    let _ := started
    0

/-- Outcome of one POST to the batch metrics endpoint: an HTTP response with
a status code, or one of the exception classes caught by send_metrics. -/
inductive PostStatus where
  | http (code : Nat)
  | timeout
  | connError
  | reqError
  | exn
deriving DecidableEq

/-- Result of one AuthenticatedApiClient.send_metrics call: the boolean it
returns, the credential state afterwards, the number of POSTs made to the
batch endpoint, the number of authenticate() invocations (inside
refresh_token_if_needed or the 401 handler), and the number of
refresh_token_if_needed() invocations. -/
structure SendResult where
  success : Bool
  state : TokenState
  attempts : Nat
  authCalls : Nat
  refreshCalls : Nat
deriving DecidableEq

/-- AuthenticatedApiClient.send_metrics over a login oracle and a post
oracle.  Empty batch: immediate success, no refresh, no POST.  Otherwise
refresh_token_if_needed gates the call; on gate failure no POST is made.
The POST consumes the head of posts: 200/201 succeed; 401 triggers one
authenticate() and, if it succeeds, a full recursive retry on the remaining
oracles (this recursion is the source's self.send_metrics(metrics) call);
422, any other status, and every caught exception fail with no retry.
An exhausted post oracle models a POST whose request failed. -/
def send_metrics {α : Type} (st : TokenState) (now margin : Int)
    (metrics : List α) (auths : List LoginResult) (posts : List PostStatus) :
    SendResult :=
  match metrics with
  | [] => ⟨true, st, 0, 0, 0⟩
  | _ :: _ =>
    let r := refresh_token_if_needed st now margin auths
    if r.ok then
      match posts with
      | [] => ⟨false, r.state, 1, r.authCalls, 1⟩
      | p :: rest =>
        match p with
        | .http 200 => ⟨true, r.state, 1, r.authCalls, 1⟩
        | .http 201 => ⟨true, r.state, 1, r.authCalls, 1⟩
        | .http 401 =>
          match r.rest with
          | [] => ⟨false, r.state, 1, r.authCalls + 1, 1⟩
          | a :: auths2 =>
            let ar := authenticate r.state now a
            if ar.1 then
              let rec2 := send_metrics ar.2 now margin metrics auths2 rest
              ⟨rec2.success, rec2.state, rec2.attempts + 1,
                r.authCalls + 1 + rec2.authCalls, 1 + rec2.refreshCalls⟩
            else ⟨false, ar.2, 1, r.authCalls + 1, 1⟩
        | .http 422 => ⟨false, r.state, 1, r.authCalls, 1⟩
        | .http _ => ⟨false, r.state, 1, r.authCalls, 1⟩
        | .timeout => ⟨false, r.state, 1, r.authCalls, 1⟩
        | .connError => ⟨false, r.state, 1, r.authCalls, 1⟩
        | .reqError => ⟨false, r.state, 1, r.authCalls, 1⟩
        | .exn => ⟨false, r.state, 1, r.authCalls, 1⟩
    else ⟨false, r.state, 0, r.authCalls, 1⟩

/-- A concrete token as installed by a successful authenticate() at time 0. -/
def tok0 : AuthToken :=
  { token := "t0", expires_at := sessionLifetime, user_id := 1,
    username := "admin" }

/-- The credential state right after a successful authenticate() at time 0. -/
def st0 : TokenState :=
  { current_token := some tok0, authHeader := some ("Bearer " ++ "t0") }

/-- A login response body with all required fields present. -/
def goodBody : LoginBody :=
  { token := some ("t0"), user := some { id := some 1, login := some ("admin") } }

/-- A fully successful login oracle outcome. -/
def goodLogin : LoginResult := .success goodBody

/-- The credential state before any authentication. -/
def noTokenState : TokenState := ⟨none, none⟩

/-- Case analysis on authenticate: every failing path returns the state
untouched, and every succeeding path installs a token expiring exactly one
session lifetime after now, with the matching Authorization header. -/
theorem authenticate_result (st : TokenState) (now : Int) (resp : LoginResult) :
    (authenticate st now resp = (false, st)) ∨
    ((authenticate st now resp).1 = true ∧
      ∃ t uid ulogin,
        (authenticate st now resp).2 =
          { current_token := some
              { token := t, expires_at := now + sessionLifetime,
                user_id := uid, username := ulogin },
            authHeader := some ("Bearer " ++ t) }) := by
  cases resp with
  | success body =>
    rcases body with ⟨tk, u⟩
    cases tk with
    | none => left; rfl
    | some t =>
      cases u with
      | none => left; rfl
      | some user =>
        rcases user with ⟨uid, ulogin⟩
        cases uid with
        | none => left; rfl
        | some i =>
          cases ulogin with
          | none => left; rfl
          | some l =>
            right
            exact ⟨rfl, t, i, l, rfl⟩
  | httpError s => left; rfl
  | netError => left; rfl
  | otherError => left; rfl

/-- Whenever authenticate reports failure it has not touched the state. -/
theorem authenticate_fail_preserves (st : TokenState) (now : Int)
    (resp : LoginResult) (h : (authenticate st now resp).1 = false) :
    (authenticate st now resp).2 = st := by
  rcases authenticate_result st now resp with hf | ⟨ht, _⟩
  · rw [hf]
  · rw [ht] at h; cases h

/-- C10: on every failure path of authenticate() — non-success HTTP status,
missing or malformed response fields, network error, timeout, or any other
exception — it returns false and leaves the credential state (current token
and session Authorization header) exactly as before the call. -/
theorem C10_authenticate_failure_preserves_state (st : TokenState) (now : Int)
    (resp : LoginResult) (h : (authenticate st now resp).1 = false) :
    (authenticate st now resp).2 = st :=
  authenticate_fail_preserves st now resp h

/-- Witness for C10 at a concrete state holding a prior token and a 500
response: authenticate fails and the prior token survives unchanged. -/
theorem C10_witness :
    (authenticate st0 0 (LoginResult.httpError 500)).1 = false ∧
    (authenticate st0 0 (LoginResult.httpError 500)).2 = st0 :=
  ⟨by decide,
    C10_authenticate_failure_preserves_state st0 0 (LoginResult.httpError 500)
      (by decide)⟩

/-- C4: is_token_valid() is true iff a current token exists and its expiry
minus the current time is strictly greater than the configured refresh
margin (false at the margin and below); it is embedded as a pure function of
the state and the clock, performing no I/O and mutating nothing. -/
theorem C4_is_token_valid_iff (st : TokenState) (now margin : Int) :
    is_token_valid st now margin = true ↔
      ∃ tok, st.current_token = some tok ∧ margin < tok.expires_at - now := by
  unfold is_token_valid
  cases h : st.current_token with
  | none => simp
  | some tok => simp [h]

/-- Unfolding of refresh_token_if_needed when a token is present. -/
theorem refresh_some_unfold (tok : AuthToken) (hdr : Option String)
    (now margin : Int) (auths : List LoginResult) :
    refresh_token_if_needed ⟨some tok, hdr⟩ now margin auths =
      if minutes_le (tok.expires_at - now) margin then
        (match auths with
          | [] => (⟨false, ⟨some tok, hdr⟩, 1, []⟩ : RefreshResult)
          | a :: rest =>
            ⟨(authenticate ⟨some tok, hdr⟩ now a).1,
              (authenticate ⟨some tok, hdr⟩ now a).2, 1, rest⟩)
      else ⟨true, ⟨some tok, hdr⟩, 0, auths⟩ := rfl

/-- C5: refresh_token_if_needed() makes exactly one authenticate() call when
no token exists or the remaining lifetime is at most the refresh margin,
makes none otherwise (returning true with the state untouched), never makes
more than one, and (for any margin below the fixed session lifetime) its
return value equals whether a valid token exists afterwards. -/
theorem C5_refresh_token_if_needed (st : TokenState) (now margin : Int)
    (auths : List LoginResult) (hm : margin < sessionLifetime) :
    (refresh_token_if_needed st now margin auths).authCalls ≤ 1 ∧
    ((st.current_token = none ∨
        ∃ tok, st.current_token = some tok ∧ tok.expires_at - now ≤ margin) →
      (refresh_token_if_needed st now margin auths).authCalls = 1) ∧
    ((∃ tok, st.current_token = some tok ∧ margin < tok.expires_at - now) →
      refresh_token_if_needed st now margin auths = ⟨true, st, 0, auths⟩) ∧
    (refresh_token_if_needed st now margin auths).ok =
      is_token_valid (refresh_token_if_needed st now margin auths).state
        now margin := by
  obtain ⟨ct, hdr⟩ := st
  cases ct with
  | none =>
    cases auths with
    | nil =>
      refine ⟨Nat.le_refl 1, fun _ => rfl, ?_, ?_⟩
      · rintro ⟨tok, htok, -⟩; simp at htok
      · rfl
    | cons a rest =>
      refine ⟨Nat.le_refl 1, fun _ => rfl, ?_, ?_⟩
      · rintro ⟨tok, htok, -⟩; simp at htok
      · show (authenticate ⟨none, hdr⟩ now a).1 =
          is_token_valid (authenticate ⟨none, hdr⟩ now a).2 now margin
        rcases authenticate_result ⟨none, hdr⟩ now a with hf | ⟨ht, t, uid, ul, hst⟩
        · rw [hf]; rfl
        · rw [ht, hst]
          simp only [is_token_valid]
          rw [eq_comm, decide_eq_true_eq]
          omega
  | some tok =>
    rw [refresh_some_unfold]
    by_cases hc : minutes_le (tok.expires_at - now) margin
    · have hle : tok.expires_at - now ≤ margin :=
        (refresh_margin_compare (tok.expires_at - now) margin).mp hc
      rw [if_pos hc]
      cases auths with
      | nil =>
        refine ⟨Nat.le_refl 1, fun _ => rfl, ?_, ?_⟩
        · rintro ⟨tok', htok, hgt⟩
          simp only [Option.some.injEq] at htok
          subst htok; omega
        · simp only [is_token_valid]
          rw [eq_comm, decide_eq_false_iff_not]
          omega
      | cons a rest =>
        refine ⟨Nat.le_refl 1, fun _ => rfl, ?_, ?_⟩
        · rintro ⟨tok', htok, hgt⟩
          simp only [Option.some.injEq] at htok
          subst htok; omega
        · show (authenticate ⟨some tok, hdr⟩ now a).1 =
            is_token_valid (authenticate ⟨some tok, hdr⟩ now a).2 now margin
          rcases authenticate_result ⟨some tok, hdr⟩ now a
            with hf | ⟨ht, t, uid, ul, hst⟩
          · rw [hf]
            simp only [is_token_valid]
            rw [eq_comm, decide_eq_false_iff_not]
            omega
          · rw [ht, hst]
            simp only [is_token_valid]
            rw [eq_comm, decide_eq_true_eq]
            omega
    · have hgt : margin < tok.expires_at - now := by
        rcases lt_or_ge margin (tok.expires_at - now) with h | h
        · exact h
        · exact absurd ((refresh_margin_compare (tok.expires_at - now)
            margin).mpr h) hc
      rw [if_neg hc]
      refine ⟨Nat.zero_le 1, ?_, fun _ => rfl, ?_⟩
      · rintro (hnone | ⟨tok', htok, hle⟩)
        · simp at hnone
        · simp only [Option.some.injEq] at htok
          subst htok; omega
      · simp only [is_token_valid]
        rw [eq_comm, decide_eq_true_eq]
        omega

/-- Witness for C5 at the freshly authenticated state, clock 0, the default
margin 300 and an empty login oracle: no authenticate call is needed, the
call returns true and reports the valid token. -/
theorem C5_witness :
    (300 : Int) < sessionLifetime ∧
    ((refresh_token_if_needed st0 0 300 []).authCalls ≤ 1 ∧
      ((st0.current_token = none ∨
          ∃ tok, st0.current_token = some tok ∧ tok.expires_at - 0 ≤ 300) →
        (refresh_token_if_needed st0 0 300 []).authCalls = 1) ∧
      ((∃ tok, st0.current_token = some tok ∧ 300 < tok.expires_at - 0) →
        refresh_token_if_needed st0 0 300 [] = ⟨true, st0, 0, []⟩) ∧
      (refresh_token_if_needed st0 0 300 []).ok =
        is_token_valid (refresh_token_if_needed st0 0 300 []).state 0 300) :=
  ⟨by decide, C5_refresh_token_if_needed st0 0 300 [] (by decide)⟩

/-- C8: update_from_api sets the collection interval to the payload value
(120 when omitted) and each of the four feature flags to the payload value
(enabled when omitted), and returns true iff at least one of these five
fields differs from its value before the call. -/
theorem C8_update_from_api (c : AgentConfig) (p : ApiConfigPayload) :
    (update_from_api c p).1.collection_interval =
      p.data_collection_interval.getD 120 ∧
    (update_from_api c p).1.enable_cpu_monitoring =
      p.enable_cpu_monitoring.getD true ∧
    (update_from_api c p).1.enable_ram_monitoring =
      p.enable_ram_monitoring.getD true ∧
    (update_from_api c p).1.enable_disk_monitoring =
      p.enable_disk_monitoring.getD true ∧
    (update_from_api c p).1.enable_network_monitoring =
      p.enable_network_monitoring.getD true ∧
    ((update_from_api c p).2 = true ↔
      (c.collection_interval ≠ p.data_collection_interval.getD 120 ∨
        c.enable_cpu_monitoring ≠ p.enable_cpu_monitoring.getD true ∨
        c.enable_ram_monitoring ≠ p.enable_ram_monitoring.getD true ∨
        c.enable_disk_monitoring ≠ p.enable_disk_monitoring.getD true ∨
        c.enable_network_monitoring ≠ p.enable_network_monitoring.getD true)) := by
  refine ⟨rfl, rfl, rfl, rfl, rfl, ?_⟩
  simp only [update_from_api, Bool.or_eq_true, decide_eq_true_eq]
  tauto

/-- A concrete configuration as built by main() from the CLI parameters. -/
def cfg0 : AgentConfig :=
  { api_url := "u", host_id := 1, login := "l", password := "p" }

/-- A remote configuration payload with every optional field absent. -/
def pay0 : ApiConfigPayload := ⟨none, none, none, none, none⟩

/-- Counterexample to C2: at time 700 a scheduled refresh is due
(700 - 0 exceeds the 600-second interval) but the configuration endpoint
fails; the last-config-refresh timestamp stays 0 instead of being set to 700,
so at the next collection cycle (time 820) the refresh is due again —
the failing endpoint is re-attempted every cycle, not once per interval. -/
theorem C2_counterexample :
    should_refresh_config 700 0 = true ∧
    (refresh_config_if_needed cfg0 0 700 none).2 = 0 ∧
    ¬ (refresh_config_if_needed cfg0 0 700 none).2 = 700 ∧
    should_refresh_config 820 0 = true := by decide

/-- C2 as amended: a scheduled refresh updates the last-config-refresh
timestamp only when the refresh succeeds; on failure both the configuration
and the timestamp are left unchanged, so while the endpoint keeps failing the
refresh stays due at every later cycle. -/
theorem C2_amended_refresh_timestamp (c : AgentConfig)
    (last_config_refresh now now' : Int) (p : ApiConfigPayload)
    (hnow : now ≤ now') :
    refresh_config_if_needed c last_config_refresh now none =
      (c, last_config_refresh) ∧
    (refresh_config_if_needed c last_config_refresh now (some p)).2 = now ∧
    (should_refresh_config now last_config_refresh = true →
      should_refresh_config now' last_config_refresh = true) := by
  refine ⟨rfl, rfl, ?_⟩
  simp only [should_refresh_config, decide_eq_true_eq]
  intro h
  omega

/-- Witness for the amended C2 at the concrete failing-refresh scenario. -/
theorem C2_amended_witness :
    (700 : Int) ≤ 820 ∧
    (refresh_config_if_needed cfg0 0 700 none = (cfg0, 0) ∧
      (refresh_config_if_needed cfg0 0 700 (some pay0)).2 = 700 ∧
      (should_refresh_config 700 0 = true → should_refresh_config 820 0 = true)) :=
  ⟨by decide, C2_amended_refresh_timestamp cfg0 0 700 820 pay0 (by decide)⟩

/-- Counterexample to C3: with well-formed parameters and an initial
authentication that fails with HTTP 500, start() refuses to enter the
running loop, but main() falls off its end and the process exits with
status 0, not a non-zero status. -/
theorem C3_counterexample :
    (start 0 (LoginResult.httpError 500)).1 = false ∧
    mainExitCode (ArgvParse.parsed ("u") 1 ("l") ("p")) 0
      (LoginResult.httpError 500) = 0 := by
  exact ⟨rfl, rfl⟩

/-- C3 as amended: if the initial authentication fails, the agent never
enters the running loop (the failure is fatal and not retried) and start()
returns, after which the process exits with status 0; a non-zero exit status
occurs only for a wrong argument count or a malformed HOST_ID. -/
theorem C3_amended_startup (now : Int) (resp : LoginResult) (url : String)
    (hid : Int) (lg pw : String)
    (h : (authenticate ⟨none, none⟩ now resp).1 = false) :
    (start now resp).1 = false ∧
    mainExitCode (ArgvParse.parsed url hid lg pw) now resp = 0 ∧
    mainExitCode ArgvParse.wrongCount now resp = 1 ∧
    mainExitCode ArgvParse.badHostId now resp = 1 := by
  refine ⟨?_, rfl, rfl, rfl⟩
  simp [start, h]

/-- Witness for the amended C3 at a concrete failed login. -/
theorem C3_amended_witness :
    (start 0 (LoginResult.httpError 401)).1 = false ∧
    mainExitCode (ArgvParse.parsed ("u") 1 ("l") ("p")) 0
      (LoginResult.httpError 401) = 0 ∧
    mainExitCode ArgvParse.wrongCount 0 (LoginResult.httpError 401) = 1 ∧
    mainExitCode ArgvParse.badHostId 0 (LoginResult.httpError 401) = 1 :=
  C3_amended_startup 0 (LoginResult.httpError 401) ("u") 1 ("l") ("p")
    (by decide)

/-- If the running flag reads false at every check from index K on, the sleep
loop never sleeps past K steps. -/
theorem wait_aux_le (running : Nat → Bool) (K : Nat)
    (hK : ∀ t, K ≤ t → running t = false) :
    ∀ remaining total, total ≤ K →
      wait_for_next_cycle_aux remaining total running ≤ K := by
  intro remaining
  induction remaining with
  | zero => intro total h; exact h
  | succ r ih =>
    intro total h
    simp only [wait_for_next_cycle_aux]
    by_cases hr : running total = true
    · rw [if_pos hr]
      apply ih
      rcases Nat.lt_or_ge total K with hlt | hge
      · omega
      · rw [hK total hge] at hr; cases hr
    · rw [if_neg hr]
      exact h

/-- If the sleep loop stops before exhausting its budget, it stopped because
the running flag was observed false at the step where it stopped. -/
theorem wait_aux_flag (running : Nat → Bool) :
    ∀ remaining total,
      wait_for_next_cycle_aux remaining total running < total + remaining →
      running (wait_for_next_cycle_aux remaining total running) = false := by
  intro remaining
  induction remaining with
  | zero =>
    intro total h
    simp only [wait_for_next_cycle_aux] at h
    omega
  | succ r ih =>
    intro total h
    simp only [wait_for_next_cycle_aux] at h ⊢
    by_cases hr : running total = true
    · rw [if_pos hr] at h ⊢
      apply ih
      omega
    · rw [if_neg hr] at h ⊢
      simp only [Bool.not_eq_true] at hr
      exact hr

/-- C9: the inter-cycle wait sleeps in 1-second increments, re-checking the
running flag after each increment; if a shutdown signal makes every flag
check from index K on read false (the signal arrived during sleep step K-1 or
earlier), the wait returns after at most K one-second steps — at most one
more step after the signal — without completing the full collection interval,
and the flag it leaves behind is false, so the enclosing while-running loop
stops. -/
theorem C9_wait_interrupted (collection_interval K : Nat)
    (running : Nat → Bool) (hK : ∀ t, K ≤ t → running t = false)
    (hlt : K < collection_interval) :
    wait_for_next_cycle collection_interval running ≤ K ∧
    wait_for_next_cycle collection_interval running < collection_interval ∧
    running (wait_for_next_cycle collection_interval running) = false := by
  have h1 : wait_for_next_cycle collection_interval running ≤ K :=
    wait_aux_le running K hK collection_interval 0 (Nat.zero_le K)
  have h2 : wait_for_next_cycle collection_interval running <
      collection_interval := lt_of_le_of_lt h1 hlt
  have h3 := wait_aux_flag running collection_interval 0 (by
    simpa [wait_for_next_cycle] using h2)
  exact ⟨h1, h2, h3⟩

/-- Witness for C9: the spec scenario of a shutdown signal raised at t = 2
seconds into a 120-second sleep — the wait stops within 2 steps, far short of
120, with the flag observed false. -/
theorem C9_witness :
    wait_for_next_cycle 120 (fun t => decide (t < 2)) ≤ 2 ∧
    wait_for_next_cycle 120 (fun t => decide (t < 2)) < 120 ∧
    (fun t => decide (t < 2))
      (wait_for_next_cycle 120 (fun t => decide (t < 2))) = false :=
  C9_wait_interrupted 120 2 (fun t => decide (t < 2))
    (by
      intro t ht
      simp only [decide_eq_false_iff_not]
      omega)
    (by omega)

/-- Unfolding of one 401 round of send_metrics from the freshly authenticated
state: the refresh gate is a no-op (the token is one full session lifetime
from expiry), the POST consumes the 401, the successful re-authentication
reproduces the same fresh state, and the whole call retries recursively on
the remaining oracles, adding one send attempt, one authenticate call and one
refresh call. -/
theorem send_metrics_st0_401_step (auths : List LoginResult)
    (posts : List PostStatus) :
    send_metrics st0 0 300 [()] (goodLogin :: auths)
        (PostStatus.http 401 :: posts) =
      ⟨(send_metrics st0 0 300 [()] auths posts).success,
        (send_metrics st0 0 300 [()] auths posts).state,
        (send_metrics st0 0 300 [()] auths posts).attempts + 1,
        1 + (send_metrics st0 0 300 [()] auths posts).authCalls,
        1 + (send_metrics st0 0 300 [()] auths posts).refreshCalls⟩ := rfl

/-- Counterexample to C1: a stubbed transport answering 401, 401, 200 with
re-authentication succeeding both times.  send_metrics makes three POSTs
(two retries) and two re-authentications and still returns success — a
persistent 401 with succeeding re-authentication is retried on every 401,
not at most once. -/
theorem C1_counterexample :
    (send_metrics st0 0 300 [()] [goodLogin, goodLogin]
        [PostStatus.http 401, PostStatus.http 401, PostStatus.http 200]) =
      ⟨true, st0, 3, 2, 3⟩ := by decide

/-- C1 as amended: on 401 send_metrics performs one immediate
re-authentication and retries the send recursively; if the re-authentication
after a 401 fails, it fails after that single attempt.  The retry is not
bounded to one: each further 401 answered by a succeeding re-authentication
triggers another full retry, so n consecutive 401s followed by a 200 produce
n + 1 send attempts and n re-authentications, with final success. -/
theorem C1_amended_retry_per_401 :
    (∀ n : Nat,
      send_metrics st0 0 300 [()] (List.replicate n goodLogin)
          (List.replicate n (PostStatus.http 401) ++ [PostStatus.http 200]) =
        ⟨true, st0, n + 1, n, n + 1⟩) ∧
    (∀ posts : List PostStatus,
      send_metrics st0 0 300 [()] [LoginResult.httpError 401]
          (PostStatus.http 401 :: posts) =
        ⟨false, st0, 1, 1, 1⟩) := by
  constructor
  · intro n
    induction n with
    | zero => rfl
    | succ k ih =>
      rw [List.replicate_succ, List.replicate_succ, List.cons_append,
        send_metrics_st0_401_step, ih]
      rw [Nat.add_comm 1 k, Nat.add_comm 1 (k + 1)]
  · intro posts
    rfl

/-- C6: send_metrics on an empty list succeeds with no POST, no authenticate
call and no refresh call; on a non-empty list whose token-refresh gate fails
it returns failure with zero POSTs (no partial send). -/
theorem C6_send_metrics_gate {α : Type} (st : TokenState) (now margin : Int)
    (auths : List LoginResult) (posts : List PostStatus) (metrics : List α)
    (hne : metrics ≠ [])
    (hfail : (refresh_token_if_needed st now margin auths).ok = false) :
    send_metrics st now margin ([] : List α) auths posts =
      ⟨true, st, 0, 0, 0⟩ ∧
    (send_metrics st now margin metrics auths posts).success = false ∧
    (send_metrics st now margin metrics auths posts).attempts = 0 := by
  refine ⟨send_metrics.eq_1 st now margin auths posts, ?_, ?_⟩ <;>
  · cases metrics with
    | nil => cases hne rfl
    | cons m ms => simp [send_metrics.eq_def, hfail]

/-- Witness for C6: a one-element batch, no token and an exhausted login
oracle — the refresh gate fails, send_metrics fails with zero POSTs, and the
empty batch succeeds with no calls at all. -/
theorem C6_witness :
    ([0] ≠ ([] : List Nat)) ∧
    (refresh_token_if_needed noTokenState 0 300 []).ok = false ∧
    (send_metrics noTokenState 0 300 ([] : List Nat) [] [] =
      ⟨true, noTokenState, 0, 0, 0⟩ ∧
    (send_metrics noTokenState 0 300 [0] [] []).success = false ∧
    (send_metrics noTokenState 0 300 [0] [] []).attempts = 0) :=
  ⟨by decide, by decide,
    C6_send_metrics_gate noTokenState 0 300 [] [] [0] (by decide) (by decide)⟩

/-- C7: when the token-refresh gate passes and the batch POST answers 422,
send_metrics fails after exactly one POST, with no retry and no
authenticate call beyond those made by the gate itself. -/
theorem C7_send_metrics_422 {α : Type} (st : TokenState) (now margin : Int)
    (metrics : List α) (auths : List LoginResult) (posts : List PostStatus)
    (hne : metrics ≠ [])
    (hok : (refresh_token_if_needed st now margin auths).ok = true) :
    (send_metrics st now margin metrics auths
      (PostStatus.http 422 :: posts)).success = false ∧
    (send_metrics st now margin metrics auths
      (PostStatus.http 422 :: posts)).attempts = 1 ∧
    (send_metrics st now margin metrics auths
      (PostStatus.http 422 :: posts)).authCalls =
      (refresh_token_if_needed st now margin auths).authCalls := by
  cases metrics with
  | nil => cases hne rfl
  | cons m ms => refine ⟨?_, ?_, ?_⟩ <;> simp [send_metrics.eq_def, hok]

/-- Witness for C7: the freshly authenticated state (gate is a no-op) and a
stubbed transport answering 422 — failure after exactly one POST and zero
authenticate calls. -/
theorem C7_witness :
    ([0] ≠ ([] : List Nat)) ∧
    (refresh_token_if_needed st0 0 300 []).ok = true ∧
    ((send_metrics st0 0 300 [0] [] [PostStatus.http 422]).success = false ∧
    (send_metrics st0 0 300 [0] [] [PostStatus.http 422]).attempts = 1 ∧
    (send_metrics st0 0 300 [0] [] [PostStatus.http 422]).authCalls =
      (refresh_token_if_needed st0 0 300 []).authCalls) :=
  ⟨by decide, by decide,
    C7_send_metrics_422 st0 0 300 [0] [] [] (by decide) (by decide)⟩

end ZenMon
